import Mathlib

/-!
Shallow embedding of the transactional email dispatch engine of the
express-boilerplate repository:

* `src/mailer/schema.ts` — zod schemas `emailConfigSchema` / `emailMessageSchema`
* `src/mailer/config.ts` — class `EmailSMTPService` (template cache,
  `compileTemplate`, `renderTemplate`, `sendEmail`, `sendBulkEmails`,
  Handlebars arithmetic helpers)
* `src/mailer/service.ts` — `createEmailService`, `sendEmailWithTemplate`
* `src/app/email/email.service.ts` — `EmailService.validateSmtpConnection`
* `src/app/email/email.validators.ts` — `emailUpdateSchema`
* `src/validators/commonRules.ts` — the zod building blocks

External library behaviour (nodemailer transport, Handlebars compilation,
zod's email regular expression, JavaScript `Number()` string parsing) is
modelled by an explicit oracle record `Env`; everything written in the
repository itself is translated directly.  JavaScript exceptions are
modelled with `Except String`, a thrown value being its `.message` string.
-/

/-- JSON-like values: the schema-less `templateData` record
(`z.record(z.string(), z.any())` in `src/mailer/schema.ts`). -/
inductive JValue where
  | str (s : String)
  | num (q : ℚ)
  | bool (b : Bool)
  | null
  | arr (xs : List JValue)
  | obj (fields : List (String × JValue))

/-- `TemplateDataType` — a record of arbitrary values. -/
abbrev TemplateData := List (String × JValue)

/-- A compiled Handlebars template (`Handlebars.TemplateDelegate`): invoking
it on data yields the rendered string or throws (modelled as `Except`). -/
abbrev Renderer := TemplateData → Except String String

/-- `validateEmailOrArray` accepts one email address or an array of them. -/
inductive Recipients where
  | single (email : String)
  | many (emails : List String)
deriving DecidableEq

/-- Attachment `content` is a string or a `Buffer` (raw bytes). -/
inductive AttachmentContent where
  | str (s : String)
  | buffer (bytes : List Nat)
deriving DecidableEq

/-- One attachment of `emailMessageSchema`. -/
structure Attachment where
  filename : String
  path : Option String := none
  content : Option AttachmentContent := none
  contentType : Option String := none
deriving DecidableEq

/-- `EmailMessageSchemaType` — the message object given to `sendEmail`.
Optional fields are `Option`; a field that is present but an empty string is
*present* for the schema yet falsy for JavaScript truthiness tests.
The source fields `to` and `from` are keywords in Lean and are spelled
`toAddr` / `fromAddr` here. -/
structure EmailMessage where
  toAddr : Recipients
  subject : String
  text : Option String := none
  html : Option String := none
  templateHtml : Option String := none
  templateData : Option TemplateData := none
  name : Option String := none
  fromAddr : Option String := none
  cc : Option Recipients := none
  bcc : Option Recipients := none
  attachments : Option (List Attachment) := none

/-- The structured result of `sendEmail`:
`{ success: boolean; messageId?: string; error?: string }`. -/
structure SendResult where
  success : Bool
  messageId : Option String := none
  error : Option String := none
deriving DecidableEq

/-- The mail object handed to `transporter.sendMail` in `sendEmail`
(fields `from`/`to` spelled `fromAddr`/`toAddr`). -/
structure MailOptions where
  fromAddr : String
  toAddr : Recipients
  subject : String
  text : Option String
  html : Option String
  cc : Option Recipients
  bcc : Option Recipients
  attachments : Option (List Attachment)
deriving DecidableEq

/-- Oracle for the behaviour of the external libraries:
`compile` is `Handlebars.compile` (syntax error ⇒ `.error msg`),
`sendMail` is `transporter.sendMail` (success ⇒ `.ok messageId`),
`emailOk` is zod's `.email()` regular-expression test,
`jsNumber` is JavaScript `Number()` on a string (`NaN` ⇒ `none`). -/
structure Env where
  compile : String → Except String Renderer
  sendMail : MailOptions → Except String String
  emailOk : String → Bool
  jsNumber : String → Option ℚ

/-- JavaScript truthiness of an optional string field: `undefined` and the
empty string are falsy. -/
def optTruthy : Option String → Bool
  | none => false
  | some s => s != ""

/-- `a || b` for an optional string `a` and a string `b` (JS `||`). -/
def jsOrStr (a : Option String) (b : String) : String :=
  match a with
  | some s => if s != "" then s else b
  | none => b

/-! ### UTF-8 and base64

`sendEmail` derives its cache key with
`Buffer.from(templateHtml).toString("base64").substring(0, 32)`.
`Buffer.from` encodes the string as UTF-8; `toString("base64")` is standard
base64 with padding.  Both are modelled here over `List Nat` bytes. -/

/-- UTF-8 encoding of one Unicode scalar value. -/
def utf8EncodeChar (c : Char) : List Nat :=
  let n := c.toNat
  if n < 128 then [n]
  else if n < 2048 then [192 + n / 64, 128 + n % 64]
  else if n < 65536 then [224 + n / 4096, 128 + n / 64 % 64, 128 + n % 64]
  else [240 + n / 262144, 128 + n / 4096 % 64, 128 + n / 64 % 64, 128 + n % 64]

/-- UTF-8 bytes of a string (`Buffer.from(s)` in Node). -/
def utf8Bytes (s : String) : List Nat :=
  (s.toList.map utf8EncodeChar).flatten

/-- The standard base64 alphabet. -/
def base64Alphabet : List Char :=
  "ABCDEFGHIJKLMNOPQRSTUVWXYZabcdefghijklmnopqrstuvwxyz0123456789+/".toList

/-- Character for a 6-bit group. -/
def b64Char (n : Nat) : Char :=
  base64Alphabet.getD n 'A'

/-- Standard base64 encoding with `=` padding, three input bytes at a time
(`buffer.toString("base64")`). -/
def base64Encode : List Nat → List Char
  | [] => []
  | [b1] => [b64Char (b1 / 4), b64Char (b1 % 4 * 16), '=', '=']
  | [b1, b2] => [b64Char (b1 / 4), b64Char (b1 % 4 * 16 + b2 / 16), b64Char (b2 % 16 * 4), '=']
  | b1 :: b2 :: b3 :: rest =>
      b64Char (b1 / 4) :: b64Char (b1 % 4 * 16 + b2 / 16) ::
        b64Char (b2 % 16 * 4 + b3 / 64) :: b64Char (b3 % 64) :: base64Encode rest

/-- The cache key derived in `sendEmail`:
`` `template_${Buffer.from(templateHtml).toString("base64").substring(0, 32)}` ``. -/
def cacheKeyOf (templateHtml : String) : String :=
  "template_" ++ String.mk ((base64Encode (utf8Bytes templateHtml)).take 32)

/-! ### The template cache (`private templateCache = new Map<...>()`) -/

/-- The template cache: insertion-ordered key/renderer pairs (JS `Map`). -/
abbrev Cache := List (String × Renderer)

/-- `Map.has`/`Map.get` combined: the renderer stored under a key. -/
def cacheFind : Cache → String → Option Renderer
  | [], _ => none
  | (k', r) :: rest, k => if k' = k then some r else cacheFind rest k

/-- `Map.set`: overwrite an existing key, otherwise append. -/
def cacheSet : Cache → String → Renderer → Cache
  | [], k, r => [(k, r)]
  | (k', r') :: rest, k, r =>
      if k' = k then (k, r) :: rest else (k', r') :: cacheSet rest k r

namespace EmailSMTPService

/-- The guard `cacheKey && this.templateCache.has(cacheKey)` of
`compileTemplate`: JS truthiness, so an *empty-string* key behaves exactly
like no key — the lookup is skipped. -/
def cacheLookup (cache : Cache) (cacheKey : Option String) : Option Renderer :=
  if optTruthy cacheKey then cacheFind cache (cacheKey.getD "") else none

/-- `EmailSMTPService.compileTemplate`: return the cached renderer on a cache
hit; otherwise compile and store under the key — both the hit test
(`if (cacheKey && this.templateCache.has(cacheKey))`) and the store
(`if (cacheKey)`) are guarded by JS truthiness of the key, so an
empty-string key neither hits nor stores.  A compilation failure is wrapped
as `` `Failed to compile template: ${message}` ``.  Returns the resulting
cache alongside (the class mutates `this.templateCache`). -/
def compileTemplate (env : Env) (cache : Cache) (templateHtml : String)
    (cacheKey : Option String) : Except String Renderer × Cache :=
  match cacheLookup cache cacheKey with
  | some r => (.ok r, cache)
  | none =>
    match env.compile templateHtml with
    | .ok t =>
      (.ok t, if optTruthy cacheKey then cacheSet cache (cacheKey.getD "") t else cache)
    | .error e => (.error ("Failed to compile template: " ++ e), cache)

/-- `EmailSMTPService.renderTemplate`: compile (with caching) and invoke the
renderer; every failure inside the `try` is rethrown as
`` `Failed to render template: ${message}` ``. -/
def renderTemplate (env : Env) (cache : Cache) (templateHtml : String)
    (data : TemplateData) (cacheKey : Option String) : Except String String × Cache :=
  match compileTemplate env cache templateHtml cacheKey with
  | (.ok r, cache₂) =>
    match r data with
    | .ok out => (.ok out, cache₂)
    | .error e => (.error ("Failed to render template: " ++ e), cache₂)
  | (.error e, cache₂) => (.error ("Failed to render template: " ++ e), cache₂)

end EmailSMTPService

/-! ### Message validation (`emailMessageSchema.parse`)

zod aggregates every issue of a parse into one thrown `ZodError`; the
embedding returns the message of the first failing check (the claims only
depend on *whether* an error string is produced, never on its text, so the
aggregate JSON text of `ZodError.message` is not reproduced verbatim). -/

/-- `validateEmailOrArray`: a single address or an array, each matching
zod's email test (`validateEmail` also requires length ≥ 1, which the
email regular expression subsumes). -/
def recipientsOk (env : Env) : Recipients → Bool
  | .single e => env.emailOk e
  | .many es => es.all env.emailOk

/-- An optional field passes when absent or when its value passes. -/
def optAll (p : α → Bool) : Option α → Bool
  | none => true
  | some a => p a

/-- The `.refine` of `emailMessageSchema`:
`data.text || data.html || data.templateHtml` (JS truthiness, so a field
that is present but empty counts as absent). -/
def hasContentJS (m : EmailMessage) : Bool :=
  optTruthy m.text || optTruthy m.html || optTruthy m.templateHtml

/-- `emailMessageSchema.parse(message)`: field checks in declaration order,
then the content refinement. -/
def validateMessage (env : Env) (m : EmailMessage) : Except String Unit :=
  if ¬ recipientsOk env m.toAddr then .error "To must be a valid email address"
  else if m.subject = "" then .error "Subject must be at least 1 characters"
  else if ¬ optAll env.emailOk m.fromAddr then .error "Email must be a valid email address"
  else if ¬ optAll (recipientsOk env) m.cc then .error "CC must be a valid email address"
  else if ¬ optAll (recipientsOk env) m.bcc then .error "BCC must be a valid email address"
  else if ¬ optAll (fun l => l.all (fun a => a.filename != "")) m.attachments then
    .error "Filename must be at least 1 characters"
  else if ¬ hasContentJS m then .error "Either text, html, or templateHtml must be provided"
  else .ok ()

/-- `true` exactly when `emailMessageSchema.parse` succeeds. -/
def isValidMessage (env : Env) (m : EmailMessage) : Bool :=
  match validateMessage env m with
  | .ok _ => true
  | .error _ => false

namespace EmailSMTPService

/-- The cache key derived in `sendEmail`: present exactly when
`templateData` was supplied (an object is always truthy in JS). -/
def sendCacheKey (templateHtml : String) (templateData : Option TemplateData) :
    Option String :=
  match templateData with
  | some _ => some (cacheKeyOf templateHtml)
  | none => none

/-- `` `${validMessage.name} <${validMessage.from || this.defaultFrom}>` ``
when `validMessage.name` is truthy, else `this.defaultFrom`. -/
def resolveFromHeader (defaultFrom : String) (name fromAddr : Option String) : String :=
  if optTruthy name then
    name.getD "" ++ " <" ++ (if optTruthy fromAddr then fromAddr.getD "" else defaultFrom) ++ ">"
  else defaultFrom

/-- Outcome of one `sendEmail` call: the structured result, the argument of
the `transporter.sendMail` call when one was made (`none` when the failure
happened before the transport was reached), and the template cache
afterwards. -/
structure SendOutcome where
  result : SendResult
  sentMail : Option MailOptions
  cache : Cache

/-- The `mailOptions` literal of `sendEmail`: every optional field is
passed through unchanged, `html` is the (possibly rendered) content. -/
def buildMailOptions (defaultFrom : String) (m : EmailMessage)
    (htmlContent : Option String) : MailOptions :=
  { fromAddr := resolveFromHeader defaultFrom m.name m.fromAddr
    toAddr := m.toAddr
    subject := m.subject
    text := m.text
    html := htmlContent
    cc := m.cc
    bcc := m.bcc
    attachments := m.attachments }

/-- The tail of `sendEmail` after `htmlContent` is known: build `from` and
`mailOptions`, call `transporter.sendMail`, and map the outcome to a
`SendResult`. -/
def sendViaTransport (env : Env) (defaultFrom : String) (cache : Cache)
    (m : EmailMessage) (htmlContent : Option String) : SendOutcome :=
  match env.sendMail (buildMailOptions defaultFrom m htmlContent) with
  | .ok id => ⟨⟨true, some id, none⟩, some (buildMailOptions defaultFrom m htmlContent), cache⟩
  | .error e => ⟨⟨false, none, some e⟩, some (buildMailOptions defaultFrom m htmlContent), cache⟩

/-- `EmailSMTPService.sendEmail`: validate, render the template when
`templateHtml` is truthy — `if (validMessage.templateHtml)`, so a
present-but-empty template string is skipped like an absent one
(`htmlContent` then stays `validMessage.html`) — send, and catch every
failure into `{ success: false, error }`.  The function is total — the
`try`/`catch` of the source never lets an exception escape. -/
def sendEmail (env : Env) (defaultFrom : String) (cache : Cache)
    (m : EmailMessage) : SendOutcome :=
  match validateMessage env m with
  | .error e => ⟨⟨false, none, some e⟩, none, cache⟩
  | .ok _ =>
    if optTruthy m.templateHtml then
      match renderTemplate env cache (m.templateHtml.getD "") (m.templateData.getD [])
          (sendCacheKey (m.templateHtml.getD "") m.templateData) with
      | (.ok out, cache₂) => sendViaTransport env defaultFrom cache₂ m (some out)
      | (.error e, cache₂) => ⟨⟨false, none, some e⟩, none, cache₂⟩
    else sendViaTransport env defaultFrom cache m m.html

/-- `EmailSMTPService.sendBulkEmails`:
`Promise.all(messages.map(message => this.sendEmail(message)))`.  The sends
share `this.templateCache`; the embedding fixes the sequential
interleaving, which is one schedule of the concurrent original (results are
index-aligned in every schedule). -/
def sendBulkEmails (env : Env) (defaultFrom : String) (cache : Cache) :
    List EmailMessage → List SendResult × Cache
  | [] => ([], cache)
  | m :: ms =>
    let o := sendEmail env defaultFrom cache m
    let rest := sendBulkEmails env defaultFrom o.cache ms
    (o.result :: rest.1, rest.2)

end EmailSMTPService

/-! ### Handlebars math helpers (`initializeHandlebars` in `config.ts`)

JavaScript numbers are IEEE doubles; the helpers are modelled over `ℚ`,
which agrees with the source on every exactly-representable input and in
particular on the division-by-zero / modulo-by-zero guards the claims are
about.  JS `%` is the remainder of truncated division (sign of the
dividend). -/

namespace HandlebarsHelpers

/-- `Handlebars.registerHelper("add", (a, b) => a + b)`. -/
def add (a b : ℚ) : ℚ := a + b

/-- `(a, b) => a - b`. -/
def subtract (a b : ℚ) : ℚ := a - b

/-- `(a, b) => a * b`. -/
def multiply (a b : ℚ) : ℚ := a * b

/-- Truncation toward zero, the rounding used by the JS `%` operator. -/
def jsTrunc (q : ℚ) : ℚ :=
  if 0 ≤ q then (q.floor : ℚ) else -(((-q).floor : ℚ))

/-- The JS remainder `a % b` for `b ≠ 0`: `a - b * trunc(a / b)`. -/
def jsRem (a b : ℚ) : ℚ := a - b * jsTrunc (a / b)

/-- `(a, b) => (b !== 0 ? a / b : 0)`. -/
def divide (a b : ℚ) : ℚ := if b ≠ 0 then a / b else 0

/-- `(a, b) => (b !== 0 ? a % b : 0)`. -/
def modulo (a b : ℚ) : ℚ := if b ≠ 0 then jsRem a b else 0

end HandlebarsHelpers

/-! ### Transport validation (`EmailService.validateSmtpConnection`,
`src/app/email/email.service.ts`) -/

/-- `EmailUpdateSchemaType` (`email.validators.ts`): port is
`z.coerce.number().min(1).max(65535)` — a number between 1 and 65535,
*not* required to be an integer (no `.int()` refinement). -/
structure SmtpCheckConfig where
  host : String
  port : ℚ
  secure : Bool
  username : String
  password : String
  fromName : String
  fromEmail : String

/-- The range check of `emailUpdateSchema` on an already-coerced port. -/
def emailUpdatePortOk (p : ℚ) : Bool :=
  1 ≤ p && p ≤ 65535

/-- `const port = Number(smtpConfig.port)`: on the schema's numeric output
JavaScript `Number()` is the identity — it performs no rounding, so a
fractional port stays fractional. -/
def coercePort (p : ℚ) : ℚ := p

/-- The effective `secure`/`requireTLS` pair. -/
structure TransportSecurity where
  secure : Bool
  requireTLS : Bool
deriving DecidableEq

/-- The port-convention branch of `validateSmtpConnection`:
port 465 ⇒ `secure = true` (with `requireTLS` left `false`);
ports 587 and 25 ⇒ `secure = false, requireTLS = true`;
any other port keeps the caller's `secure` with `requireTLS = false`. -/
def deriveTransportSecurity (port : ℚ) (secure : Bool) : TransportSecurity :=
  if port = 465 then ⟨true, false⟩
  else if port = 587 ∨ port = 25 then ⟨false, true⟩
  else ⟨secure, false⟩

/-- The options of the transient transport built by
`validateSmtpConnection` (permissive TLS, 10-second timeouts). -/
structure VerifyTransportOptions where
  host : String
  port : ℚ
  secure : Bool
  requireTLS : Bool
  user : String
  pass : String
  tlsRejectUnauthorized : Bool
  tlsMinVersion : String
  tlsCiphers : String
  connectionTimeout : Nat
  greetingTimeout : Nat
  socketTimeout : Nat

/-- The transport options `validateSmtpConnection` passes to
`nodemailer.createTransport`. -/
def buildVerifyTransport (cfg : SmtpCheckConfig) : VerifyTransportOptions :=
  let sec := deriveTransportSecurity (coercePort cfg.port) cfg.secure
  { host := cfg.host
    port := coercePort cfg.port
    secure := sec.secure
    requireTLS := sec.requireTLS
    user := cfg.username
    pass := cfg.password
    tlsRejectUnauthorized := false
    tlsMinVersion := "TLSv1"
    tlsCiphers := "SSLv3"
    connectionTimeout := 10000
    greetingTimeout := 10000
    socketTimeout := 10000 }

/-- `validateSmtpConnection`: build the transient transport, `verify()` it
(oracle argument), and map the outcome to the service response —
`.ok true` on success, the error message otherwise (the
`ServiceResponse` status wrapper carries no further information the claims
touch). -/
def validateSmtpConnection (verify : VerifyTransportOptions → Except String Unit)
    (cfg : SmtpCheckConfig) : Except String Bool :=
  match verify (buildVerifyTransport cfg) with
  | .ok _ => .ok true
  | .error e => .error e

/-! ### The Lookup Bridge (`src/mailer/service.ts`) -/

/-- The `process.env` SMTP variables (presence is enforced at boot by the
environment schema; their values are strings). -/
structure EnvSmtp where
  SMTP_HOST : String
  SMTP_PORT : String
  SMTP_USER : String
  SMTP_PASSWORD : String

/-- The raw object `createEmailService` passes to `new EmailSMTPService`. -/
structure RawEmailConfig where
  host : String
  port : String
  secure : Bool
  user : String
  pass : String
deriving DecidableEq

/-- `createEmailService`'s config literal.  `secure` is
`process.env.SMTP_PORT === 465`: a strict equality between a string (or
`undefined`) and the number 465, which is `false` for every environment —
so `secure` is always `false` here. -/
def envRawConfig (e : EnvSmtp) : RawEmailConfig :=
  { host := e.SMTP_HOST
    port := e.SMTP_PORT
    secure := false
    user := e.SMTP_USER
    pass := e.SMTP_PASSWORD }

/-- `EmailConfigSchemaType` after a successful `emailConfigSchema.parse`. -/
structure ValidEmailConfig where
  host : String
  port : ℚ
  secure : Bool
  user : String
  pass : String

/-- `emailConfigSchema.parse` in the `EmailSMTPService` constructor:
host min 1, port coerced (`Number()`, via the `jsNumber` oracle) and in
1..65535, `auth.user` an email, `auth.pass` min 1. -/
def emailConfigParse (env : Env) (c : RawEmailConfig) : Except String ValidEmailConfig :=
  if c.host = "" then .error "Host must be at least 1 characters"
  else
    match env.jsNumber c.port with
    | none => .error "Port must be a number"
    | some p =>
      if ¬ (1 ≤ p) then .error "Port must be at least 1"
      else if ¬ (p ≤ 65535) then .error "Port must be between 1 and 65535"
      else if ¬ env.emailOk c.user then .error "Email must be a valid email address"
      else if c.pass = "" then .error "Password must be at least 1 characters"
      else .ok ⟨c.host, p, c.secure, c.user, c.pass⟩

/-- A template row resolved by name (`retrieveEmailTemplate(...).data`). -/
structure TemplateRow where
  subject : String
  html : String
deriving DecidableEq

/-- An email-configuration row resolved by name
(`retrieveOneByConfigName(...).data`, the `email` table). -/
structure EmailRow where
  host : String
  port : Int
  secure : Bool
  username : String
  password : String
  fromName : String
  fromEmail : String
deriving DecidableEq

/-- Ghost observations of one `sendEmailWithTemplate` call: the raw config
the dispatcher (`EmailSMTPService`) was constructed from, and the message
handed to `sendEmail`. -/
structure BridgeTrace where
  usedConfig : Option RawEmailConfig := none
  sentMessage : Option EmailMessage := none

/-- Body of the `try` block of `sendEmailWithTemplate`: resolve the
template, resolve the configuration, construct the dispatcher via
`createEmailService()` (from the environment), build the message, send,
and throw `result.error` when the send reports failure. -/
def sendEmailWithTemplateInner (env : Env) (envSmtp : EnvSmtp)
    (lookupTemplate : String → Option TemplateRow)
    (lookupConfig : String → Option EmailRow)
    (templateName configName toEmail : String)
    (templateData : Option TemplateData) (subjectOverride : Option String) :
    Except String Unit × BridgeTrace :=
  match lookupTemplate templateName with
  | none =>
    (.error ("Email template '" ++ templateName ++ "' not found or has no data"), {})
  | some t =>
    match lookupConfig configName with
    | none =>
      (.error ("Email service configuration '" ++ configName ++
          "' not found or has no data"), {})
    | some row =>
      let raw := envRawConfig envSmtp
      match emailConfigParse env raw with
      | .error e => (.error e, { usedConfig := some raw })
      | .ok vc =>
        let msg : EmailMessage :=
          { toAddr := .single toEmail
            subject := jsOrStr subjectOverride t.subject
            templateHtml := some t.html
            templateData := templateData
            fromAddr := some row.fromEmail
            name := some row.fromName }
        let o := EmailSMTPService.sendEmail env vc.user [] msg
        let tr : BridgeTrace := { usedConfig := some raw, sentMessage := some msg }
        if o.result.success then (.ok (), tr)
        else (.error (o.result.error.getD "Failed to send email"), tr)

/-- `sendEmailWithTemplate`: the `try` body above, with the `catch` that
wraps every failure as
`` `Failed to send email with template '${name}' to '${to}': ${message}` ``
and re-raises. -/
def sendEmailWithTemplate (env : Env) (envSmtp : EnvSmtp)
    (lookupTemplate : String → Option TemplateRow)
    (lookupConfig : String → Option EmailRow)
    (templateName configName toEmail : String)
    (templateData : Option TemplateData) (subjectOverride : Option String) :
    Except String Unit × BridgeTrace :=
  ((match (sendEmailWithTemplateInner env envSmtp lookupTemplate lookupConfig
      templateName configName toEmail templateData subjectOverride).1 with
    | .ok u => .ok u
    | .error e =>
      .error ("Failed to send email with template '" ++ templateName ++ "' to '" ++
        toEmail ++ "': " ++ e)),
   (sendEmailWithTemplateInner env envSmtp lookupTemplate lookupConfig
      templateName configName toEmail templateData subjectOverride).2)

/-! ### Basic cache lemmas -/

theorem cacheFind_mem {c : Cache} {k : String} {r : Renderer}
    (h : cacheFind c k = some r) : (k, r) ∈ c := by
  induction c with
  | nil => simp [cacheFind] at h
  | cons p rest ih =>
    obtain ⟨k', r'⟩ := p
    by_cases hk : k' = k
    · subst hk
      simp [cacheFind] at h
      subst h
      exact List.mem_cons_self _ _
    · simp [cacheFind, hk] at h
      exact List.mem_cons_of_mem _ (ih h)

theorem cacheFind_cacheSet_self (c : Cache) (k : String) (r : Renderer) :
    cacheFind (cacheSet c k r) k = some r := by
  induction c with
  | nil => simp [cacheSet, cacheFind]
  | cons p rest ih =>
    by_cases hk : p.1 = k
    · cases p
      simp_all [cacheSet, cacheFind]
    · cases p
      simp_all [cacheSet, cacheFind]

theorem mem_cacheSet {c : Cache} {k : String} {r : Renderer} {p : String × Renderer}
    (h : p ∈ cacheSet c k r) : p = (k, r) ∨ p ∈ c := by
  induction c with
  | nil => simpa [cacheSet] using h
  | cons q rest ih =>
    by_cases hk : q.1 = k
    · cases q
      simp_all [cacheSet]
      tauto
    · cases q
      simp [cacheSet, hk] at h
      rcases h with h | h
      · subst h; simp
      · rcases ih h with h | h
        · exact Or.inl h
        · exact Or.inr (by simp [h])

/-! ### base64 prefix lemmas

32 base64 characters encode exactly 24 input bytes, so
`substring(0, 32)` of the encoding is a function of the first 24 bytes. -/

theorem base64Encode_append : ∀ (a b : List Nat), a.length % 3 = 0 →
    base64Encode (a ++ b) = base64Encode a ++ base64Encode b
  | [], _, _ => by simp [base64Encode]
  | [_], _, h => by simp at h
  | [_, _], _, h => by simp at h
  | b1 :: b2 :: b3 :: rest, b, h => by
    have hr : rest.length % 3 = 0 := by
      simp only [List.length_cons] at h
      omega
    simp only [List.cons_append, base64Encode, List.append_eq,
      base64Encode_append rest b hr]

theorem base64Encode_length : ∀ (a : List Nat), a.length % 3 = 0 →
    (base64Encode a).length = a.length / 3 * 4
  | [], _ => by simp [base64Encode]
  | [_], h => by simp at h
  | [_, _], h => by simp at h
  | b1 :: b2 :: b3 :: rest, h => by
    have hr : rest.length % 3 = 0 := by
      simp only [List.length_cons] at h
      omega
    simp only [base64Encode, List.length_cons, base64Encode_length rest hr]
    omega

theorem base64Encode_take32 (bs : List Nat) :
    (base64Encode bs).take 32 = (base64Encode (bs.take 24)).take 32 := by
  by_cases hle : 24 ≤ bs.length
  · have hsplit : bs.take 24 ++ bs.drop 24 = bs := List.take_append_drop 24 bs
    have hlen : (bs.take 24).length = 24 := by
      simp [List.length_take, Nat.min_eq_left hle]
    have hmod : (bs.take 24).length % 3 = 0 := by omega
    have henc : base64Encode bs = base64Encode (bs.take 24) ++ base64Encode (bs.drop 24) := by
      conv_lhs => rw [← hsplit]
      exact base64Encode_append _ _ hmod
    have hlen32 : (base64Encode (bs.take 24)).length = 32 := by
      rw [base64Encode_length _ hmod, hlen]
    rw [henc, List.take_append_eq_append_take, hlen32]
    simp
  · have hall : bs.take 24 = bs := List.take_of_length_le (by omega)
    rw [hall]

/-- The derived cache key is a function of the first 24 UTF-8 bytes. -/
theorem cacheKeyOf_eq_of_take24_eq {s₁ s₂ : String}
    (h : (utf8Bytes s₁).take 24 = (utf8Bytes s₂).take 24) :
    cacheKeyOf s₁ = cacheKeyOf s₂ := by
  unfold cacheKeyOf
  rw [base64Encode_take32 (utf8Bytes s₁), base64Encode_take32 (utf8Bytes s₂), h]

/-! ### Shape lemmas for the transport tail of `sendEmail` -/

namespace EmailSMTPService

theorem sendViaTransport_ok {env : Env} {dflt : String} {cache : Cache}
    {m : EmailMessage} {html : Option String} {id : String}
    (h : env.sendMail (buildMailOptions dflt m html) = .ok id) :
    sendViaTransport env dflt cache m html =
      ⟨⟨true, some id, none⟩, some (buildMailOptions dflt m html), cache⟩ := by
  simp [sendViaTransport, h]

theorem sendViaTransport_err {env : Env} {dflt : String} {cache : Cache}
    {m : EmailMessage} {html : Option String} {e : String}
    (h : env.sendMail (buildMailOptions dflt m html) = .error e) :
    sendViaTransport env dflt cache m html =
      ⟨⟨false, none, some e⟩, some (buildMailOptions dflt m html), cache⟩ := by
  simp [sendViaTransport, h]

theorem sendViaTransport_shape (env : Env) (dflt : String) (cache : Cache)
    (m : EmailMessage) (html : Option String) :
    (∃ id, env.sendMail (buildMailOptions dflt m html) = .ok id ∧
      sendViaTransport env dflt cache m html =
        ⟨⟨true, some id, none⟩, some (buildMailOptions dflt m html), cache⟩) ∨
    (∃ e, env.sendMail (buildMailOptions dflt m html) = .error e ∧
      sendViaTransport env dflt cache m html =
        ⟨⟨false, none, some e⟩, some (buildMailOptions dflt m html), cache⟩) := by
  cases h : env.sendMail (buildMailOptions dflt m html) with
  | ok id => exact Or.inl ⟨id, rfl, sendViaTransport_ok h⟩
  | error e => exact Or.inr ⟨e, rfl, sendViaTransport_err h⟩

/-- Exhaustive shape of a `sendEmail` outcome: validation failure (no
transport call), render failure (no transport call), or a transport
call whose success/failure is mapped to the structured result. -/
theorem sendEmail_shape (env : Env) (dflt : String) (cache : Cache) (m : EmailMessage) :
    (∃ e, validateMessage env m = .error e ∧
      sendEmail env dflt cache m = ⟨⟨false, none, some e⟩, none, cache⟩) ∨
    (∃ e cache₂, sendEmail env dflt cache m = ⟨⟨false, none, some e⟩, none, cache₂⟩ ∧
      validateMessage env m = .ok ()) ∨
    (∃ html cache₂, (∃ id, env.sendMail (buildMailOptions dflt m html) = .ok id ∧
        sendEmail env dflt cache m =
          ⟨⟨true, some id, none⟩, some (buildMailOptions dflt m html), cache₂⟩) ∨
      (∃ e, env.sendMail (buildMailOptions dflt m html) = .error e ∧
        sendEmail env dflt cache m =
          ⟨⟨false, none, some e⟩, some (buildMailOptions dflt m html), cache₂⟩)) := by
  cases hv : validateMessage env m with
  | error e =>
    refine Or.inl ⟨e, rfl, ?_⟩
    simp [sendEmail, hv]
  | ok u =>
    cases u
    by_cases ht : optTruthy m.templateHtml = true
    · rcases hr : renderTemplate env cache (m.templateHtml.getD "") (m.templateData.getD [])
          (sendCacheKey (m.templateHtml.getD "") m.templateData) with ⟨res, cache₂⟩
      cases res with
      | error e =>
        have hred : sendEmail env dflt cache m = ⟨⟨false, none, some e⟩, none, cache₂⟩ := by
          simp [sendEmail, hv, ht, hr]
        exact Or.inr (Or.inl ⟨e, cache₂, hred, rfl⟩)
      | ok out =>
        have hred : sendEmail env dflt cache m = sendViaTransport env dflt cache₂ m (some out) := by
          simp [sendEmail, hv, ht, hr]
        refine Or.inr (Or.inr ⟨some out, cache₂, ?_⟩)
        rcases sendViaTransport_shape env dflt cache₂ m (some out) with ⟨id, hs, he⟩ | ⟨e, hs, he⟩
        · exact Or.inl ⟨id, hs, hred.trans he⟩
        · exact Or.inr ⟨e, hs, hred.trans he⟩
    · have hred : sendEmail env dflt cache m = sendViaTransport env dflt cache m m.html := by
        simp [sendEmail, hv, ht]
      refine Or.inr (Or.inr ⟨m.html, cache, ?_⟩)
      rcases sendViaTransport_shape env dflt cache m m.html with ⟨id, hs, he⟩ | ⟨e, hs, he⟩
      · exact Or.inl ⟨id, hs, hred.trans he⟩
      · exact Or.inr ⟨e, hs, hred.trans he⟩

end EmailSMTPService

/-! ### Concrete instances used by witnesses and counterexamples -/

/-- Decimal-natural parsing for the concrete `Number()` oracle. -/
def decimalNat? (s : String) : Option Nat :=
  if s.toList ≠ [] ∧ s.toList.all (fun c => c.isDigit) then
    some (s.toList.foldl (fun acc c => acc * 10 + (c.toNat - 48)) 0)
  else none

/-- A deterministic oracle: compilation always succeeds and rendering a
template `s` yields `"R:" ++ s`; the transport always accepts and returns
message id `"msg-id-1"`; every string passes the email test; `Number()`
parses decimal naturals. -/
def testEnv : Env :=
  { compile := fun s => .ok (fun _ => .ok ("R:" ++ s))
    sendMail := fun _ => .ok "msg-id-1"
    emailOk := fun _ => true
    jsNumber := fun s => (decimalNat? s).map (fun n => (n : ℚ)) }

/-- A concrete environment-variable block. -/
def testEnvSmtp : EnvSmtp :=
  { SMTP_HOST := "smtp.env.example"
    SMTP_PORT := "587"
    SMTP_USER := "env@example.com"
    SMTP_PASSWORD := "envpass" }

/-- A plain valid message (text content only). -/
def msgOk : EmailMessage :=
  { toAddr := .single "user@example.com", subject := "Hello", text := some "hi" }

/-- A message with none of `text`/`html`/`templateHtml`. -/
def msgNoContent : EmailMessage :=
  { toAddr := .single "user@example.com", subject := "Hello" }

/-- A message that *supplies* `text`, but as the empty string. -/
def msgEmptyText : EmailMessage :=
  { toAddr := .single "user@example.com", subject := "Hello", text := some "" }

/-- A message whose display name is present but empty, with an explicit
`from` address. -/
def msgEmptyName : EmailMessage :=
  { toAddr := .single "user@example.com", subject := "Hello", text := some "hi"
    name := some "", fromAddr := some "sender@example.com" }

/-- A message with a non-empty display name and explicit `from`. -/
def msgNamed : EmailMessage :=
  { toAddr := .single "user@example.com", subject := "Hello", text := some "hi"
    name := some "Alice", fromAddr := some "sender@example.com" }

/-- Two distinct template sources agreeing on their first 24 bytes. -/
def tplA : String := "<p>Greetings from our service A</p>"

/-- See `tplA`. -/
def tplB : String := "<p>Greetings from our service B</p>"

/-- A templated send of `tplA` with (empty) template data. -/
def msgTplA : EmailMessage :=
  { toAddr := .single "user@example.com", subject := "Hello"
    templateHtml := some tplA, templateData := some [] }

/-- A templated send of `tplB` with (empty) template data. -/
def msgTplB : EmailMessage :=
  { toAddr := .single "user@example.com", subject := "Hello"
    templateHtml := some tplB, templateData := some [] }

/-- A stored template row. -/
def welcomeRow : TemplateRow := { subject := "Welcome!", html := "<p>Hello</p>" }

/-- A stored transport-configuration row whose SMTP host differs from the
environment's. -/
def acmeRow : EmailRow :=
  { host := "smtp.acme.example", port := 2525, secure := true
    username := "acme@example.com", password := "dbpass"
    fromName := "Acme", fromEmail := "noreply@acme.example" }

/-- Template lookup: only `"welcome"` exists. -/
def lookupT : String → Option TemplateRow :=
  fun n => if n = "welcome" then some welcomeRow else none

/-- Configuration lookup: only `"acme"` exists. -/
def lookupC : String → Option EmailRow :=
  fun n => if n = "acme" then some acmeRow else none

/-- A renderer planted directly in a cache for the cache-hit witness. -/
def cachedRenderer : Renderer := fun _ => .ok "cached-output"

/-- The renderer `testEnv` compiles from the source string `"src"`. -/
def compiledSrcRenderer : Renderer := fun _ => .ok ("R:" ++ "src")

/-! ### A benign environment: compilation, rendering and transport all
succeed.  Under such an environment the success of a send is exactly the
success of message validation, which is what the bulk-send counting claim
is about. -/

/-- Every invocation of the renderer succeeds. -/
def RendererTotal (r : Renderer) : Prop := ∀ d, ∃ out, r d = .ok out

/-- Every renderer stored in the cache is total. -/
def CacheTotal (c : Cache) : Prop := ∀ p ∈ c, RendererTotal p.2

/-- Compilation always succeeds with a total renderer, and the transport
always accepts. -/
def EnvBenign (env : Env) : Prop :=
  (∀ s, ∃ r, env.compile s = .ok r ∧ RendererTotal r) ∧
  (∀ o, ∃ id, env.sendMail o = .ok id)

theorem cacheSet_total {c : Cache} {k : String} {r : Renderer}
    (hc : CacheTotal c) (hr : RendererTotal r) : CacheTotal (cacheSet c k r) := by
  intro p hp
  rcases mem_cacheSet hp with h | h
  · subst h
    exact hr
  · exact hc p h

theorem compileTemplate_benign {env : Env} {c : Cache} (s : String) (k : Option String)
    (henv : EnvBenign env) (hc : CacheTotal c) :
    ∃ r c₂, EmailSMTPService.compileTemplate env c s k = (.ok r, c₂) ∧
      RendererTotal r ∧ CacheTotal c₂ := by
  cases hl : EmailSMTPService.cacheLookup c k with
  | some r =>
    have hmem : cacheFind c (k.getD "") = some r := by
      unfold EmailSMTPService.cacheLookup at hl
      by_cases ht : optTruthy k = true
      · rwa [if_pos ht] at hl
      · rw [if_neg ht] at hl
        cases hl
    exact ⟨r, c, by simp [EmailSMTPService.compileTemplate, hl],
      hc _ (cacheFind_mem hmem), hc⟩
  | none =>
    obtain ⟨r, hr, hrt⟩ := henv.1 s
    by_cases ht : optTruthy k = true
    · exact ⟨r, cacheSet c (k.getD "") r,
        by simp [EmailSMTPService.compileTemplate, hl, hr, ht], hrt,
        cacheSet_total hc hrt⟩
    · exact ⟨r, c, by simp [EmailSMTPService.compileTemplate, hl, hr, ht], hrt, hc⟩

theorem renderTemplate_benign {env : Env} {c : Cache} (s : String) (d : TemplateData)
    (k : Option String) (henv : EnvBenign env) (hc : CacheTotal c) :
    ∃ out c₂, EmailSMTPService.renderTemplate env c s d k = (.ok out, c₂) ∧
      CacheTotal c₂ := by
  obtain ⟨r, c₂, hct, hrt, hc₂⟩ := compileTemplate_benign s k henv hc
  obtain ⟨out, hout⟩ := hrt d
  exact ⟨out, c₂, by simp [EmailSMTPService.renderTemplate, hct, hout], hc₂⟩

theorem sendEmail_benign {env : Env} (dflt : String) {c : Cache} (m : EmailMessage)
    (henv : EnvBenign env) (hc : CacheTotal c) :
    (EmailSMTPService.sendEmail env dflt c m).result.success = isValidMessage env m ∧
    CacheTotal (EmailSMTPService.sendEmail env dflt c m).cache := by
  cases hv : validateMessage env m with
  | error e =>
    simp [EmailSMTPService.sendEmail, hv, isValidMessage]
    exact hc
  | ok u =>
    cases u
    have hvalid : isValidMessage env m = true := by simp [isValidMessage, hv]
    by_cases ht : optTruthy m.templateHtml = true
    · obtain ⟨out, c₂, hrt, hc₂⟩ := renderTemplate_benign (m.templateHtml.getD "")
        (m.templateData.getD [])
        (EmailSMTPService.sendCacheKey (m.templateHtml.getD "") m.templateData) henv hc
      obtain ⟨id, hid⟩ := henv.2 (EmailSMTPService.buildMailOptions dflt m (some out))
      have hred : EmailSMTPService.sendEmail env dflt c m =
          EmailSMTPService.sendViaTransport env dflt c₂ m (some out) := by
        simp [EmailSMTPService.sendEmail, hv, ht, hrt]
      rw [hred, EmailSMTPService.sendViaTransport_ok hid, hvalid]
      exact ⟨rfl, hc₂⟩
    · obtain ⟨id, hid⟩ := henv.2 (EmailSMTPService.buildMailOptions dflt m m.html)
      have hred : EmailSMTPService.sendEmail env dflt c m =
          EmailSMTPService.sendViaTransport env dflt c m m.html := by
        simp [EmailSMTPService.sendEmail, hv, ht]
      rw [hred, EmailSMTPService.sendViaTransport_ok hid, hvalid]
      exact ⟨rfl, hc⟩

/-! ### Claim theorems -/

/-- C1: `sendEmail` never throws and always returns a structured
`SendResult`: `messageId` is present exactly on success and `error` exactly
on failure; when the transport is reached, transport success yields
`{success := true, messageId}` and transport failure yields
`{success := false, error}`.  (Totality of the Lean function is the
"never throws" part; validation, render and transport failures all land in
the `.error` branches of the oracle.) -/
theorem sendEmail_structured_result (env : Env) (dflt : String) (cache : Cache)
    (m : EmailMessage) :
    ((EmailSMTPService.sendEmail env dflt cache m).result.messageId.isSome =
      (EmailSMTPService.sendEmail env dflt cache m).result.success) ∧
    ((EmailSMTPService.sendEmail env dflt cache m).result.error.isSome =
      !(EmailSMTPService.sendEmail env dflt cache m).result.success) ∧
    (∀ opts id, (EmailSMTPService.sendEmail env dflt cache m).sentMail = some opts →
      env.sendMail opts = .ok id →
      (EmailSMTPService.sendEmail env dflt cache m).result = ⟨true, some id, none⟩) ∧
    (∀ opts e, (EmailSMTPService.sendEmail env dflt cache m).sentMail = some opts →
      env.sendMail opts = .error e →
      (EmailSMTPService.sendEmail env dflt cache m).result = ⟨false, none, some e⟩) := by
  rcases EmailSMTPService.sendEmail_shape env dflt cache m with
    ⟨e, hv, hval⟩ | ⟨e, c₂, hval, hv⟩ | ⟨html, c₂, ⟨id, hs, hval⟩ | ⟨e, hs, hval⟩⟩ <;>
    rw [hval]
  · refine ⟨rfl, rfl, ?_, ?_⟩ <;> intro opts x h <;> simp at h
  · refine ⟨rfl, rfl, ?_, ?_⟩ <;> intro opts x h <;> simp at h
  · refine ⟨rfl, rfl, ?_, ?_⟩ <;> intro opts x hopts hx <;>
      simp only [Option.some.injEq] at hopts <;> subst hopts <;> rw [hs] at hx
    · cases hx
      rfl
    · cases hx
  · refine ⟨rfl, rfl, ?_, ?_⟩ <;> intro opts x hopts hx <;>
      simp only [Option.some.injEq] at hopts <;> subst hopts <;> rw [hs] at hx
    · cases hx
    · cases hx
      rfl

/-- Witness for C1: a concrete valid message through the deterministic
oracle, discharging the transport-success hypotheses. -/
theorem sendEmail_structured_result_witness :
    (EmailSMTPService.sendEmail testEnv "boss@example.com" [] msgOk).result =
      ⟨true, some "msg-id-1", none⟩ :=
  (sendEmail_structured_result testEnv "boss@example.com" [] msgOk).2.2.1
    (EmailSMTPService.buildMailOptions "boss@example.com" msgOk none) "msg-id-1" rfl rfl

/-- C6 counterexample: both cache guards of `compileTemplate` are JS
truthiness tests on the key (`if (cacheKey && ...has(cacheKey))`,
`if (cacheKey)`), so a *supplied* empty-string key neither stores nor
hits: compiling under key `""` with the key absent leaves the cache
empty (the claim says it stores before returning), and even with an
entry stored under `""` the call returns a fresh compile whose renderer
is observably different from the stored one. -/
theorem compileTemplate_empty_key_counterexample :
    cacheFind [] "" = none ∧
    EmailSMTPService.compileTemplate testEnv [] "src" (some "") =
      (.ok compiledSrcRenderer, []) ∧
    cacheFind [("", cachedRenderer)] "" = some cachedRenderer ∧
    EmailSMTPService.compileTemplate testEnv [("", cachedRenderer)] "src" (some "") =
      (.ok compiledSrcRenderer, [("", cachedRenderer)]) ∧
    cachedRenderer [] = .ok "cached-output" ∧
    compiledSrcRenderer [] = .ok "R:src" ∧
    "cached-output" ≠ "R:src" :=
  ⟨rfl, rfl, rfl, rfl, rfl, rfl, by decide⟩

/-- C6 (amended): for every *non-empty* cache key, `compileTemplate`
returns the stored renderer unchanged (and leaves the cache unchanged) on
a cache hit — for *every* oracle, so no recompilation influences the
result; on a miss it compiles and stores the result under the key before
returning, and a second call with the same source and key returns the
renderer cached by the first.  With no cache key — or an empty-string
key, which the JS truthiness guards treat as no key — the cache is never
extended, so the template is recompiled on every such call. -/
theorem compileTemplate_cache_contract (env : Env) (cache : Cache) (src k : String)
    (r t : Renderer) (hk : k ≠ "") :
    (cacheFind cache k = some r →
      EmailSMTPService.compileTemplate env cache src (some k) = (.ok r, cache)) ∧
    (cacheFind cache k = none → env.compile src = .ok t →
      EmailSMTPService.compileTemplate env cache src (some k) = (.ok t, cacheSet cache k t) ∧
      cacheFind (cacheSet cache k t) k = some t) ∧
    ((EmailSMTPService.compileTemplate env cache src none).2 = cache) ∧
    ((EmailSMTPService.compileTemplate env cache src (some "")).2 = cache) ∧
    (cacheFind cache k = none → env.compile src = .ok t →
      EmailSMTPService.compileTemplate env
          (EmailSMTPService.compileTemplate env cache src (some k)).2 src (some k) =
        (.ok t, (EmailSMTPService.compileTemplate env cache src (some k)).2)) := by
  have hkt : optTruthy (some k) = true := by
    simp [optTruthy, bne_iff_ne, hk]
  have hhit : ∀ (c₂ : Cache) (r₂ : Renderer), cacheFind c₂ k = some r₂ →
      EmailSMTPService.compileTemplate env c₂ src (some k) = (.ok r₂, c₂) := by
    intro c₂ r₂ h
    simp [EmailSMTPService.compileTemplate, EmailSMTPService.cacheLookup, hkt, h]
  have hmiss : cacheFind cache k = none → env.compile src = .ok t →
      EmailSMTPService.compileTemplate env cache src (some k) = (.ok t, cacheSet cache k t) := by
    intro h1 h2
    simp [EmailSMTPService.compileTemplate, EmailSMTPService.cacheLookup, hkt, h1, h2]
  refine ⟨hhit cache r, fun h1 h2 => ⟨hmiss h1 h2, cacheFind_cacheSet_self cache k t⟩,
    ?_, ?_, fun h1 h2 => ?_⟩
  · have hl : EmailSMTPService.cacheLookup cache none = none := rfl
    cases hc : env.compile src <;>
      simp [EmailSMTPService.compileTemplate, hl, optTruthy, hc]
  · have hl : EmailSMTPService.cacheLookup cache (some "") = none := rfl
    cases hc : env.compile src <;>
      simp [EmailSMTPService.compileTemplate, hl, optTruthy, hc]
  · rw [hmiss h1 h2]
    exact hhit (cacheSet cache k t) t (cacheFind_cacheSet_self cache k t)

/-- Witness for C6: a planted cache hit, a fresh compile-and-store under a
non-empty key, and the no-key case, all at concrete inputs. -/
theorem compileTemplate_cache_contract_witness :
    EmailSMTPService.compileTemplate testEnv [("k", cachedRenderer)] "src" (some "k") =
      (.ok cachedRenderer, [("k", cachedRenderer)]) ∧
    (EmailSMTPService.compileTemplate testEnv [] "src" (some "k") =
      (.ok compiledSrcRenderer, cacheSet [] "k" compiledSrcRenderer) ∧
     cacheFind (cacheSet [] "k" compiledSrcRenderer) "k" = some compiledSrcRenderer) ∧
    (EmailSMTPService.compileTemplate testEnv [] "src" none).2 = [] :=
  ⟨(compileTemplate_cache_contract testEnv [("k", cachedRenderer)] "src" "k"
      cachedRenderer cachedRenderer (by decide)).1 rfl,
   (compileTemplate_cache_contract testEnv [] "src" "k"
      cachedRenderer compiledSrcRenderer (by decide)).2.1 rfl rfl,
   (compileTemplate_cache_contract testEnv [] "src" "k"
      cachedRenderer compiledSrcRenderer (by decide)).2.2.1⟩

/-- C8: the `divide` helper returns `a / b` for `b ≠ 0` and `0` for
`b = 0`; the `modulo` helper returns the JS remainder `a % b` for `b ≠ 0`
and `0` for `b = 0`; in particular `divide 10 0 = 0` (so rendering
`{{divide a b}}` with `a = 10, b = 0` emits `0` rather than erroring).
Number arithmetic is modelled exactly over `ℚ`. -/
theorem divide_modulo_zero_guard (a b : ℚ) (h : b ≠ 0) :
    HandlebarsHelpers.divide a b = a / b ∧
    HandlebarsHelpers.modulo a b = HandlebarsHelpers.jsRem a b ∧
    HandlebarsHelpers.divide a 0 = 0 ∧
    HandlebarsHelpers.modulo a 0 = 0 ∧
    HandlebarsHelpers.divide 10 0 = 0 := by
  refine ⟨?_, ?_, ?_, ?_, ?_⟩ <;>
    simp [HandlebarsHelpers.divide, HandlebarsHelpers.modulo, h]

/-- Witness for C8 at `a = 10, b = 4`. -/
theorem divide_modulo_zero_guard_witness :
    HandlebarsHelpers.divide 10 4 = 10 / 4 ∧ HandlebarsHelpers.divide 10 0 = 0 :=
  ⟨(divide_modulo_zero_guard 10 4 (by norm_num)).1,
   (divide_modulo_zero_guard 10 4 (by norm_num)).2.2.2.2⟩

/-- C3 counterexample: `msgEmptyText` *supplies* `text` (the field is
present) yet fails the content refinement, because the refinement is the
JS-truthiness test `data.text || data.html || data.templateHtml` and the
empty string is falsy; the send fails without reaching the transport. -/
theorem content_refine_empty_string_counterexample :
    msgEmptyText.text = some "" ∧
    hasContentJS msgEmptyText = false ∧
    (EmailSMTPService.sendEmail testEnv "boss@example.com" [] msgEmptyText).result.success
      = false ∧
    (EmailSMTPService.sendEmail testEnv "boss@example.com" [] msgEmptyText).sentMail = none :=
  ⟨rfl, rfl, rfl, rfl⟩

/-- C3 (amended): a message with none of `text`/`html`/`templateHtml`
present fails validation and returns `{success := false, error}` with no
`transporter.sendMail` call; conversely the content refinement passes when
at least one of the three is supplied *non-empty* (empty strings count as
absent under JS truthiness). -/
theorem no_content_fails_before_transport (env : Env) (dflt : String) (cache : Cache)
    (m : EmailMessage)
    (ht : m.text = none) (hh : m.html = none) (htm : m.templateHtml = none) :
    (EmailSMTPService.sendEmail env dflt cache m).result.success = false ∧
    (EmailSMTPService.sendEmail env dflt cache m).result.error.isSome = true ∧
    (EmailSMTPService.sendEmail env dflt cache m).sentMail = none ∧
    (∀ (m₂ : EmailMessage) (s : String), s ≠ "" →
      (m₂.text = some s ∨ m₂.html = some s ∨ m₂.templateHtml = some s) →
      hasContentJS m₂ = true) := by
  have hc : hasContentJS m = false := by
    simp [hasContentJS, ht, hh, htm, optTruthy]
  have hval : ∃ e, validateMessage env m = .error e := by
    cases hv : validateMessage env m with
    | error e => exact ⟨e, rfl⟩
    | ok u =>
      exfalso
      cases u
      have hcont : hasContentJS m = true := by
        unfold validateMessage at hv
        split_ifs at hv with h1 h2 h3 h4 h5 h6 h7
        simpa using h7
      rw [hc] at hcont
      cases hcont
  obtain ⟨e, he⟩ := hval
  refine ⟨by simp [EmailSMTPService.sendEmail, he], by simp [EmailSMTPService.sendEmail, he],
    by simp [EmailSMTPService.sendEmail, he], ?_⟩
  intro m₂ s hs hmem
  rcases hmem with h | h | h <;> simp [hasContentJS, h, optTruthy, bne_iff_ne, hs]

/-- Witness for C3: the message with no content fields fails before the
transport; a non-empty `text` passes the refinement. -/
theorem no_content_fails_before_transport_witness :
    (EmailSMTPService.sendEmail testEnv "boss@example.com" [] msgNoContent).result.success
      = false ∧
    (EmailSMTPService.sendEmail testEnv "boss@example.com" [] msgNoContent).sentMail = none ∧
    hasContentJS msgOk = true := by
  have h := no_content_fails_before_transport testEnv "boss@example.com" [] msgNoContent
    rfl rfl rfl
  exact ⟨h.1, h.2.2.1, h.2.2.2 msgOk "hi" (by decide) (Or.inl rfl)⟩

/-- C4 counterexample: `Number()` applied to the schema's numeric port is
the identity, and `emailUpdateSchema` admits the fractional port 465.5
(no `.int()` refinement) — so the validator does *not* coerce the port to
an integer; 465.5 then falls into the "other port" branch, keeping the
caller's `secure`. -/
theorem port_coercion_not_integer_counterexample :
    emailUpdatePortOk (931 / 2) = true ∧
    coercePort (931 / 2) = 931 / 2 ∧
    deriveTransportSecurity (coercePort (931 / 2)) false = ⟨false, false⟩ ∧
    ¬ ∃ n : ℤ, coercePort (931 / 2) = (n : ℚ) := by
  refine ⟨by simp [emailUpdatePortOk]; norm_num,
    rfl, by norm_num [deriveTransportSecurity, coercePort], ?_⟩
  rintro ⟨n, hn⟩
  rw [show coercePort (931 / 2) = 931 / 2 from rfl] at hn
  rw [div_eq_iff (by norm_num : (2 : ℚ) ≠ 0)] at hn
  have h3 : (931 : ℤ) = n * 2 := by exact_mod_cast hn
  omega

/-- C4 (amended): the validator applies JS `Number()` to the port (the
identity on the schema's numeric output — no rounding to an integer) and
derives the transient transport's TLS settings from it: port 465 ⇒
`secure = true, requireTLS = false`; ports 587/25 ⇒ `secure = false,
requireTLS = true`; any other port keeps the caller's `secure` with
`requireTLS = false` — the first two regardless of the caller's flag. -/
theorem transport_security_derivation (cfg : SmtpCheckConfig) :
    (buildVerifyTransport cfg).port = cfg.port ∧
    (cfg.port = 465 → (buildVerifyTransport cfg).secure = true ∧
      (buildVerifyTransport cfg).requireTLS = false) ∧
    (cfg.port = 587 ∨ cfg.port = 25 → (buildVerifyTransport cfg).secure = false ∧
      (buildVerifyTransport cfg).requireTLS = true) ∧
    (cfg.port ≠ 465 → cfg.port ≠ 587 → cfg.port ≠ 25 →
      (buildVerifyTransport cfg).secure = cfg.secure ∧
      (buildVerifyTransport cfg).requireTLS = false) := by
  refine ⟨rfl, fun h => ?_, fun h => ?_, fun h1 h2 h3 => ?_⟩
  · simp [buildVerifyTransport, deriveTransportSecurity, coercePort, h]
  · rcases h with h | h <;>
      norm_num [buildVerifyTransport, deriveTransportSecurity, coercePort, h]
  · simp [buildVerifyTransport, deriveTransportSecurity, coercePort, h1, h2, h3]

/-- A concrete `EmailUpdateSchemaType` value for the C4 witness. -/
def mkCheckCfg (p : ℚ) (s : Bool) : SmtpCheckConfig :=
  { host := "smtp.acme.example", port := p, secure := s, username := "user"
    password := "pw", fromName := "N", fromEmail := "noreply@acme.example" }

/-- Witness for C4 at ports 465, 587 and 2525. -/
theorem transport_security_derivation_witness :
    (buildVerifyTransport (mkCheckCfg 465 false)).secure = true ∧
    (buildVerifyTransport (mkCheckCfg 587 true)).secure = false ∧
    (buildVerifyTransport (mkCheckCfg 587 true)).requireTLS = true ∧
    (buildVerifyTransport (mkCheckCfg 2525 true)).secure = true ∧
    (buildVerifyTransport (mkCheckCfg 2525 true)).requireTLS = false := by
  have h1 := (transport_security_derivation (mkCheckCfg 465 false)).2.1 rfl
  have h2 := (transport_security_derivation (mkCheckCfg 587 true)).2.2.1 (Or.inl rfl)
  have h3 := (transport_security_derivation (mkCheckCfg 2525 true)).2.2.2
    (by norm_num [mkCheckCfg]) (by norm_num [mkCheckCfg]) (by norm_num [mkCheckCfg])
  exact ⟨h1.1, h2.1, h2.2, h3.1, h3.2⟩

/-- The header shapes realised by `resolveFromHeader`. -/
theorem resolveFromHeader_cases (dflt : String) (name fromAddr : Option String) :
    ((name = none ∨ name = some "") →
      EmailSMTPService.resolveFromHeader dflt name fromAddr = dflt) ∧
    (∀ n, name = some n → n ≠ "" →
      EmailSMTPService.resolveFromHeader dflt name fromAddr =
        n ++ " <" ++ (if optTruthy fromAddr then fromAddr.getD "" else dflt) ++ ">") := by
  constructor
  · rintro (h | h) <;> subst h <;> simp [EmailSMTPService.resolveFromHeader, optTruthy]
  · intro n hn hne
    subst hn
    simp [EmailSMTPService.resolveFromHeader, optTruthy, bne_iff_ne, hne]

/-- C9 counterexample: `msgEmptyName` has its name field *present* (empty)
and an explicit `from`, yet the outgoing header is the dispatcher's
default sender, not `"name <from>"` — name presence alone does not give
`message.from` influence. -/
theorem from_header_empty_name_counterexample :
    msgEmptyName.name = some "" ∧
    msgEmptyName.fromAddr = some "sender@example.com" ∧
    (EmailSMTPService.sendEmail testEnv "boss@example.com" [] msgEmptyName).sentMail.map
      MailOptions.fromAddr = some "boss@example.com" ∧
    " <sender@example.com>" ≠ "boss@example.com" :=
  ⟨rfl, rfl, rfl, by decide⟩

/-- C9 (amended): whenever the display name is absent *or empty*, the
outgoing `from` header is the dispatcher's default sender even when
`message.from` is supplied; when the name is non-empty the header is
`name <f>` with `f` the message's `from` when present and non-empty, else
the default sender. -/
theorem from_header_resolution (env : Env) (dflt : String) (cache : Cache)
    (m : EmailMessage) (opts : MailOptions)
    (h : (EmailSMTPService.sendEmail env dflt cache m).sentMail = some opts) :
    opts.fromAddr = EmailSMTPService.resolveFromHeader dflt m.name m.fromAddr ∧
    (m.name = none ∨ m.name = some "" → opts.fromAddr = dflt) ∧
    (∀ n, m.name = some n → n ≠ "" →
      opts.fromAddr =
        n ++ " <" ++ (if optTruthy m.fromAddr then m.fromAddr.getD "" else dflt) ++ ">") := by
  have hfrom : opts.fromAddr = EmailSMTPService.resolveFromHeader dflt m.name m.fromAddr := by
    rcases EmailSMTPService.sendEmail_shape env dflt cache m with
      ⟨e, hv, hval⟩ | ⟨e, c₂, hval, hv⟩ | ⟨html, c₂, ⟨id, hs, hval⟩ | ⟨e, hs, hval⟩⟩ <;>
      rw [hval] at h
    · simp at h
    · simp at h
    · simp only [Option.some.injEq] at h
      subst h
      rfl
    · simp only [Option.some.injEq] at h
      subst h
      rfl
  refine ⟨hfrom, fun hc => ?_, fun n hn hne => ?_⟩
  · rw [hfrom, (resolveFromHeader_cases dflt m.name m.fromAddr).1 hc]
  · rw [hfrom, (resolveFromHeader_cases dflt m.name m.fromAddr).2 n hn hne]

/-- Witness for C9: a non-empty name with an explicit `from`. -/
theorem from_header_resolution_witness :
    (EmailSMTPService.buildMailOptions "boss@example.com" msgNamed none).fromAddr =
      "Alice" ++ " <" ++
        (if optTruthy msgNamed.fromAddr then msgNamed.fromAddr.getD ""
         else "boss@example.com") ++ ">" :=
  (from_header_resolution testEnv "boss@example.com" [] msgNamed
    (EmailSMTPService.buildMailOptions "boss@example.com" msgNamed none) rfl).2.2
    "Alice" rfl (by decide)

/-- C7: whenever `sendEmailWithTemplate` fails — missing template, missing
configuration, constructor validation failure, or a failed send — it
raises (returns `.error`) with the catch-block's wrapped message, which
contains both the template name and the recipient address. -/
theorem sendEmailWithTemplate_error_wraps (env : Env) (envSmtp : EnvSmtp)
    (lt : String → Option TemplateRow) (lc : String → Option EmailRow)
    (tn cn toE : String) (td : Option TemplateData) (so : Option String) (msg : String)
    (h : (sendEmailWithTemplate env envSmtp lt lc tn cn toE td so).1 = .error msg) :
    ∃ inner, msg =
      "Failed to send email with template '" ++ tn ++ "' to '" ++ toE ++ "': " ++ inner := by
  simp only [sendEmailWithTemplate] at h
  cases hi : (sendEmailWithTemplateInner env envSmtp lt lc tn cn toE td so).1 with
  | ok u =>
    rw [hi] at h
    simp at h
  | error e =>
    rw [hi] at h
    simp only [Except.error.injEq] at h
    exact ⟨e, h.symm⟩

/-- Witness for C7: a nonexistent template name. -/
theorem sendEmailWithTemplate_error_wraps_witness :
    ∃ inner,
      "Failed to send email with template 'missing' to 'user@example.com': " ++
        "Email template 'missing' not found or has no data" =
      "Failed to send email with template '" ++ "missing" ++ "' to '" ++
        "user@example.com" ++ "': " ++ inner :=
  sendEmailWithTemplate_error_wraps testEnv testEnvSmtp lookupT lookupC "missing" "acme"
    "user@example.com" none none _ rfl

/-- C5 counterexample: with the template and a named configuration (host
`smtp.acme.example`) both resolved, the dispatcher is constructed from the
*environment* configuration (host `smtp.env.example`), not from the
resolved named configuration — `createEmailService()` reads `process.env`
and the resolved row only contributes `fromEmail`/`fromName`. -/
theorem dispatcher_env_config_counterexample :
    (lookupC "acme").map EmailRow.host = some "smtp.acme.example" ∧
    ((sendEmailWithTemplate testEnv testEnvSmtp lookupT lookupC "welcome" "acme"
        "user@example.com" none none).2.usedConfig).map RawEmailConfig.host =
      some "smtp.env.example" ∧
    "smtp.env.example" ≠ "smtp.acme.example" :=
  ⟨rfl, rfl, by decide⟩

/-- C5 (amended): after both lookups resolve, the dispatcher is constructed
from the *environment* SMTP settings (host/port/user/password from
`process.env`, `secure` hard-`false`), not from the resolved named
configuration; the resolved row supplies only the message's `from` email
and display name, and the message is built from the resolved template body
with the stored subject unless a *non-empty* subject override is given. -/
theorem dispatcher_from_env_and_lookup_message (env : Env) (envSmtp : EnvSmtp)
    (lt : String → Option TemplateRow) (lc : String → Option EmailRow)
    (tn cn toE : String) (td : Option TemplateData) (so : Option String)
    (t : TemplateRow) (row : EmailRow) (vc : ValidEmailConfig)
    (ht : lt tn = some t) (hc : lc cn = some row)
    (hvc : emailConfigParse env (envRawConfig envSmtp) = .ok vc) :
    (sendEmailWithTemplate env envSmtp lt lc tn cn toE td so).2.usedConfig =
      some (envRawConfig envSmtp) ∧
    (envRawConfig envSmtp).host = envSmtp.SMTP_HOST ∧
    (envRawConfig envSmtp).port = envSmtp.SMTP_PORT ∧
    (envRawConfig envSmtp).user = envSmtp.SMTP_USER ∧
    (envRawConfig envSmtp).pass = envSmtp.SMTP_PASSWORD ∧
    (sendEmailWithTemplate env envSmtp lt lc tn cn toE td so).2.sentMessage =
      some { toAddr := .single toE
             subject := jsOrStr so t.subject
             templateHtml := some t.html
             templateData := td
             fromAddr := some row.fromEmail
             name := some row.fromName } ∧
    (∀ s, so = some s → s ≠ "" → jsOrStr so t.subject = s) ∧
    (so = none → jsOrStr so t.subject = t.subject) := by
  have hinner : (sendEmailWithTemplateInner env envSmtp lt lc tn cn toE td so).2 =
      { usedConfig := some (envRawConfig envSmtp)
        sentMessage := some
          { toAddr := .single toE
            subject := jsOrStr so t.subject
            templateHtml := some t.html
            templateData := td
            fromAddr := some row.fromEmail
            name := some row.fromName } } := by
    simp only [sendEmailWithTemplateInner, ht, hc, hvc]
    split <;> rfl
  have htr : (sendEmailWithTemplate env envSmtp lt lc tn cn toE td so).2 =
      (sendEmailWithTemplateInner env envSmtp lt lc tn cn toE td so).2 := rfl
  refine ⟨?_, rfl, rfl, rfl, rfl, ?_, ?_, ?_⟩
  · rw [htr, hinner]
  · rw [htr, hinner]
  · intro s hso hs
    subst hso
    simp [jsOrStr, bne_iff_ne, hs]
  · intro hso
    subst hso
    rfl

/-- Witness for C5 (amended) at concrete lookups and environment. -/
theorem dispatcher_from_env_and_lookup_message_witness :
    (sendEmailWithTemplate testEnv testEnvSmtp lookupT lookupC "welcome" "acme"
        "user@example.com" none none).2.usedConfig = some (envRawConfig testEnvSmtp) ∧
    (sendEmailWithTemplate testEnv testEnvSmtp lookupT lookupC "welcome" "acme"
        "user@example.com" none none).2.sentMessage =
      some { toAddr := .single "user@example.com"
             subject := jsOrStr none welcomeRow.subject
             templateHtml := some welcomeRow.html
             templateData := none
             fromAddr := some acmeRow.fromEmail
             name := some acmeRow.fromName } := by
  have h := dispatcher_from_env_and_lookup_message testEnv testEnvSmtp lookupT lookupC
    "welcome" "acme" "user@example.com" none none welcomeRow acmeRow
    ⟨"smtp.env.example", ((587 : Nat) : ℚ), false, "env@example.com", "envpass"⟩
    rfl rfl rfl
  exact ⟨h.1, h.2.2.2.2.2.1⟩

/-! ### Cache neutrality of keyless sends (for the cache-key claim) -/

theorem compileTemplate_none_cache (env : Env) (c : Cache) (s : String) :
    (EmailSMTPService.compileTemplate env c s none).2 = c := by
  have hl : EmailSMTPService.cacheLookup c none = none := rfl
  cases h : env.compile s <;>
    simp [EmailSMTPService.compileTemplate, hl, h, optTruthy]

theorem renderTemplate_none_cache (env : Env) (c : Cache) (s : String) (d : TemplateData) :
    (EmailSMTPService.renderTemplate env c s d none).2 = c := by
  rcases hct : EmailSMTPService.compileTemplate env c s none with ⟨res, c₂⟩
  have h2 : c₂ = c := by
    have h3 := compileTemplate_none_cache env c s
    rw [hct] at h3
    exact h3
  cases res with
  | ok r => cases hr : r d <;> simp [EmailSMTPService.renderTemplate, hct, hr, h2]
  | error e => simp [EmailSMTPService.renderTemplate, hct, h2]

theorem sendViaTransport_cache (env : Env) (dflt : String) (c : Cache)
    (m : EmailMessage) (html : Option String) :
    (EmailSMTPService.sendViaTransport env dflt c m html).cache = c := by
  cases hs : env.sendMail (EmailSMTPService.buildMailOptions dflt m html) <;>
    simp [EmailSMTPService.sendViaTransport, hs]

/-- C2: under an environment in which compilation, rendering and the
transport all succeed (and every cached renderer is total — trivially so
for a fresh cache), `sendBulkEmails` returns exactly one result per input
message, index-aligned in the original order, with result `i` succeeding
exactly when message `i` passes validation; hence exactly the invalid
messages are marked `success := false` and the rest `success := true`, and
no message's failure disturbs another's result. -/
theorem sendBulkEmails_aligned_counts (env : Env) (dflt : String) (cache : Cache)
    (msgs : List EmailMessage) (henv : EnvBenign env) (hcache : CacheTotal cache) :
    (EmailSMTPService.sendBulkEmails env dflt cache msgs).1.length = msgs.length ∧
    (∀ i (h₁ : i < (EmailSMTPService.sendBulkEmails env dflt cache msgs).1.length)
        (h₂ : i < msgs.length),
      ((EmailSMTPService.sendBulkEmails env dflt cache msgs).1.get ⟨i, h₁⟩).success =
        isValidMessage env (msgs.get ⟨i, h₂⟩)) ∧
    (EmailSMTPService.sendBulkEmails env dflt cache msgs).1.countP (fun r => !r.success) =
      msgs.countP (fun m => !isValidMessage env m) ∧
    (EmailSMTPService.sendBulkEmails env dflt cache msgs).1.countP (fun r => r.success) =
      msgs.countP (fun m => isValidMessage env m) := by
  induction msgs generalizing cache with
  | nil => simp [EmailSMTPService.sendBulkEmails]
  | cons m ms ih =>
    obtain ⟨hs, hc₂⟩ := sendEmail_benign dflt m henv hcache
    obtain ⟨hlen, hidx, hcf, hct⟩ :=
      ih (EmailSMTPService.sendEmail env dflt cache m).cache hc₂
    refine ⟨?_, ?_, ?_, ?_⟩
    · simp [EmailSMTPService.sendBulkEmails, hlen]
    · intro i h₁ h₂
      cases i with
      | zero => simpa [EmailSMTPService.sendBulkEmails] using hs
      | succ n =>
        have h₁' : n <
            (EmailSMTPService.sendBulkEmails env dflt
              (EmailSMTPService.sendEmail env dflt cache m).cache ms).1.length := by
          simp [EmailSMTPService.sendBulkEmails] at h₁
          omega
        have h₂' : n < ms.length := by
          simp at h₂
          omega
        simpa [EmailSMTPService.sendBulkEmails] using hidx n h₁' h₂'
    · simp [EmailSMTPService.sendBulkEmails, List.countP_cons, hcf, hs]
    · simp [EmailSMTPService.sendBulkEmails, List.countP_cons, hct, hs]

/-- Witness for C2: two messages, one valid and one invalid, give two
results with exactly one failure and one success. -/
theorem sendBulkEmails_aligned_counts_witness :
    (EmailSMTPService.sendBulkEmails testEnv "boss@example.com" []
      [msgOk, msgNoContent]).1.length = 2 ∧
    (EmailSMTPService.sendBulkEmails testEnv "boss@example.com" []
      [msgOk, msgNoContent]).1.countP (fun r => !r.success) = 1 ∧
    (EmailSMTPService.sendBulkEmails testEnv "boss@example.com" []
      [msgOk, msgNoContent]).1.countP (fun r => r.success) = 1 := by
  have henv : EnvBenign testEnv :=
    ⟨fun s => ⟨_, rfl, fun d => ⟨_, rfl⟩⟩, fun o => ⟨_, rfl⟩⟩
  have hcache : CacheTotal ([] : Cache) := by
    intro p hp
    cases hp
  have h := sendBulkEmails_aligned_counts testEnv "boss@example.com" []
    [msgOk, msgNoContent] henv hcache
  exact ⟨h.1.trans rfl, h.2.2.1.trans rfl, h.2.2.2.trans rfl⟩

/-- C10: the cache key for a templated send with data is
`"template_"` plus the first 32 base64 characters of the UTF-8 source —
a function of the first 24 bytes only, hence not injective: `tplA` and
`tplB` differ but share a key, and after sending `tplA` the send of `tplB`
reuses `tplA`'s compiled renderer (its html is the render of `tplA`, not
of `tplB`); with no `templateData` no key is derived and the cache is
never touched, the template being compiled fresh on every such send. -/
theorem cacheKey_prefix_spec :
    (∀ s₁ s₂ : String, (utf8Bytes s₁).take 24 = (utf8Bytes s₂).take 24 →
      cacheKeyOf s₁ = cacheKeyOf s₂) ∧
    (∀ (t : String) (d : TemplateData),
      EmailSMTPService.sendCacheKey t (some d) = some (cacheKeyOf t)) ∧
    (∀ t : String, EmailSMTPService.sendCacheKey t none = none) ∧
    (∀ (env : Env) (dflt : String) (cache : Cache) (m : EmailMessage),
      m.templateData = none →
      (EmailSMTPService.sendEmail env dflt cache m).cache = cache) ∧
    (tplA ≠ tplB ∧ cacheKeyOf tplA = cacheKeyOf tplB) ∧
    ((EmailSMTPService.sendEmail testEnv "boss@example.com"
        (EmailSMTPService.sendEmail testEnv "boss@example.com" [] msgTplA).cache
        msgTplB).sentMail.map MailOptions.html = some (some ("R:" ++ tplA)) ∧
     "R:" ++ tplA ≠ "R:" ++ tplB) := by
  refine ⟨fun s₁ s₂ h => cacheKeyOf_eq_of_take24_eq h, fun t d => rfl, fun t => rfl,
    ?_, ⟨by decide, cacheKeyOf_eq_of_take24_eq (by decide)⟩, rfl, by decide⟩
  intro env dflt cache m htd
  cases hv : validateMessage env m with
  | error e => simp [EmailSMTPService.sendEmail, hv]
  | ok u =>
    cases u
    by_cases ht : optTruthy m.templateHtml = true
    · have hkey : EmailSMTPService.sendCacheKey (m.templateHtml.getD "") m.templateData
          = none := by
        rw [htd]
        rfl
      rcases hr : EmailSMTPService.renderTemplate env cache (m.templateHtml.getD "")
          (m.templateData.getD []) none with ⟨res, c₂⟩
      have hc₂ : c₂ = cache := by
        have h3 := renderTemplate_none_cache env cache (m.templateHtml.getD "")
          (m.templateData.getD [])
        rw [hr] at h3
        exact h3
      cases res with
      | error e =>
        have hred : EmailSMTPService.sendEmail env dflt cache m =
            ⟨⟨false, none, some e⟩, none, c₂⟩ := by
          simp [EmailSMTPService.sendEmail, hv, ht, hkey, hr]
        rw [hred, hc₂]
      | ok out =>
        have hred : EmailSMTPService.sendEmail env dflt cache m =
            EmailSMTPService.sendViaTransport env dflt c₂ m (some out) := by
          simp [EmailSMTPService.sendEmail, hv, ht, hkey, hr]
        rw [hred, sendViaTransport_cache, hc₂]
    · have hred : EmailSMTPService.sendEmail env dflt cache m =
          EmailSMTPService.sendViaTransport env dflt cache m m.html := by
        simp [EmailSMTPService.sendEmail, hv, ht]
      rw [hred, sendViaTransport_cache]

/-- Witness for C10: the shared-prefix collision and the keyless
cache-neutral send, at concrete inputs. -/
theorem cacheKey_prefix_spec_witness :
    cacheKeyOf tplA = cacheKeyOf tplB ∧
    (EmailSMTPService.sendEmail testEnv "boss@example.com" [] msgOk).cache = [] :=
  ⟨cacheKey_prefix_spec.1 tplA tplB (by decide),
   cacheKey_prefix_spec.2.2.2.1 testEnv "boss@example.com" [] msgOk rfl⟩
